import Mathlib

/-!
Verification of the git-synchronizer mirror orchestration engine.

The definitions below are a shallow embedding of the Go sources
(`src/unnamed/part_001` is the mirror engine; `src/cmd/root.go` holds the
configuration data model).  External git-client calls are modelled by their
outcomes: `none` stands for a `nil` Go error, `GitErr` for the distinguished
error values of the go-git library, and retry wrappers are modelled over a
fuel bound standing for the exponential-backoff elapsed-time budget.
-/

namespace GitSynchronizer

/-! ## String helpers (modelling Go's strings package over character lists) -/

/-- Lexicographic comparison of character lists by code point; models Go's
byte-wise string ordering used by sort.Strings (UTF-8 byte order coincides
with code-point order). -/
def charListLt : List Char → List Char → Bool
  | [], [] => false
  | [], _ :: _ => true
  | _ :: _, [] => false
  | a :: as, b :: bs =>
    if a.toNat < b.toNat then true
    else if b.toNat < a.toNat then false
    else charListLt as bs

/-- Go `a < b` on strings. -/
def strLt (a b : String) : Bool := charListLt a.toList b.toList

/-- Go `strings.HasPrefix s pre`. -/
def strHasPrefix (s pre : String) : Bool := pre.toList.isPrefixOf s.toList

/-- Go `strings.TrimPrefix s pre`. -/
def strTrimPrefix (s pre : String) : String :=
  if strHasPrefix s pre then String.mk (s.toList.drop pre.toList.length) else s

/-- Containment of `sub` as a contiguous subsequence of a character list;
models Go `strings.Contains`. -/
def containsSeq (sub : List Char) : List Char → Bool
  | [] => sub.isEmpty
  | c :: rest => sub.isPrefixOf (c :: rest) || containsSeq sub rest

/-- Go `strings.Contains s sub`. -/
def strContains (s sub : String) : Bool := containsSeq sub.toList s.toList

/-- Insert a string into an already sorted list (ascending). -/
def insertSorted (s : String) : List String → List String
  | [] => [s]
  | x :: xs => if strLt x s then x :: insertSorted s xs else s :: x :: xs

/-- Ascending insertion sort; models Go `sort.Strings` (part_001 lines 132-133). -/
def sortStrings (l : List String) : List String := l.foldr insertSorted []

/-! ## Error model

`none` models a `nil` Go error.  `GitErr` models the error values the engine
distinguishes: `gittransport.ErrAuthenticationRequired`,
`git.NoErrAlreadyUpToDate`, and any other error with its rendered message. -/

inductive GitErr where
  | authRequired
  | alreadyUpToDate
  | other (msg : String)
deriving DecidableEq, Repr

/-- The Go `err.Error()` rendering of each modelled error value. -/
def GitErr.message : GitErr → String
  | GitErr.authRequired => "authentication required"
  | GitErr.alreadyUpToDate => "already up-to-date"
  | GitErr.other m => m

/-- Outcome handed to the backoff library by an operation wrapper: a permanent
error (`backoff.Permanent`, terminating the retry loop) or an ordinary error
(retried). `none` models returning a `nil` error. -/
inductive BackoffErr where
  | permanent (e : GitErr)
  | transient (e : GitErr)
deriving DecidableEq, Repr

/-! ## Retry wrappers (part_001 lines 91-99, 231-278)

Each wrapper takes the outcome of the underlying go-git call and produces the
value it hands back to `backoff.Retry` / `backoff.RetryWithData`. -/

/-- `GitPlainClone` (part_001 lines 232-241): authentication-required is made
permanent; every other error is returned as-is for retrying. -/
def GitPlainClone : Option GitErr → Option BackoffErr
  | some e =>
    if e = GitErr.authRequired then some (BackoffErr.permanent e)
    else some (BackoffErr.transient e)
  | none => none

/-- `ListRemote` (part_001 lines 91-99): same classification as the clone. -/
def ListRemote : Option GitErr → Option BackoffErr
  | some e =>
    if e = GitErr.authRequired then some (BackoffErr.permanent e)
    else some (BackoffErr.transient e)
  | none => none

/-- `GitFetchBranches` (part_001 lines 244-262): authentication-required is
permanent, already-up-to-date terminates the backoff with no error (success),
anything else is retried. -/
def GitFetchBranches : Option GitErr → Option BackoffErr
  | some e =>
    if e = GitErr.authRequired then some (BackoffErr.permanent e)
    else if e = GitErr.alreadyUpToDate then none
    else some (BackoffErr.transient e)
  | none => none

/-- `PushRefs` (part_001 lines 265-278): both authentication-required and
already-up-to-date terminate the backoff (permanent); other errors are
retried. -/
def PushRefs : Option GitErr → Option BackoffErr
  | some e =>
    if e = GitErr.authRequired ∨ e = GitErr.alreadyUpToDate then
      some (BackoffErr.permanent e)
    else some (BackoffErr.transient e)
  | none => none

/-- The retry loop of `backoff.Retry`: `op i` is the outcome of the i-th
invocation; `fuel` bounds the number of additional attempts the elapsed-time
budget still allows.  Returns the final error (permanent errors are unwrapped,
as `backoff` does) together with the number of invocations performed. -/
def retryGo (op : Nat → Option BackoffErr) : Nat → Nat → Option GitErr × Nat
  | fuel, i =>
    match op i with
    | none => (none, i + 1)
    | some (BackoffErr.permanent e) => (some e, i + 1)
    | some (BackoffErr.transient e) =>
      match fuel with
      | 0 => (some e, i + 1)
      | Nat.succ f => retryGo op f (i + 1)

/-- Run a retried operation from the first attempt. -/
def retry (op : Nat → Option BackoffErr) (fuel : Nat) : Option GitErr × Nat :=
  retryGo op fuel 0

/-! ## Configuration data model (src/cmd/root.go lines 35-48) -/

structure Authentication where
  method : String
  tokenName : String
deriving DecidableEq, Repr

structure Repository where
  repositoryURL : String
  auth : Authentication
deriving DecidableEq, Repr

structure RepositoryPair where
  source : Repository
  destination : Repository
deriving DecidableEq, Repr

/-- part_001 line 35. -/
def basicAuthUsername : String := "This can be any string."

/-- part_001 line 36. -/
def token : String := "token"

/-- Authentication material attached to a git-client call: either nothing
(anonymous, a nil `Auth` field) or an HTTP basic-auth value. -/
inductive GitAuth where
  | noAuth
  | basic (username password : String)
deriving DecidableEq, Repr

structure CloneOptions where
  url : String
  auth : GitAuth
deriving DecidableEq, Repr

structure FetchOptions where
  refSpecs : List String
  auth : GitAuth
deriving DecidableEq, Repr

/-- `GetCloneOptions` (part_001 lines 150-169); `env` models `os.Getenv`. -/
def GetCloneOptions (env : String → String) (source : String)
    (sourceAuth : Authentication) : CloneOptions :=
  let sourcePat := if sourceAuth.method = token then env sourceAuth.tokenName else ""
  if sourcePat ≠ "" then
    { url := source, auth := GitAuth.basic basicAuthUsername sourcePat }
  else
    { url := source, auth := GitAuth.noAuth }

/-- `GetListOptions` (part_001 lines 172-190): only the `Auth` field of the
resulting `git.ListOptions` is modelled. -/
def GetListOptions (env : String → String) (sourceAuth : Authentication) : GitAuth :=
  let sourcePat := if sourceAuth.method = token then env sourceAuth.tokenName else ""
  if sourcePat ≠ "" then GitAuth.basic basicAuthUsername sourcePat
  else GitAuth.noAuth

/-- `GetFetchOptions` (part_001 lines 193-214). -/
def GetFetchOptions (env : String → String) (refSpec : String)
    (sourceAuth : Authentication) : FetchOptions :=
  let sourcePat := if sourceAuth.method = token then env sourceAuth.tokenName else ""
  if sourcePat ≠ "" then
    { refSpecs := [refSpec], auth := GitAuth.basic basicAuthUsername sourcePat }
  else
    { refSpecs := [refSpec], auth := GitAuth.noAuth }

/-- `GetDestinationAuth` (part_001 lines 217-229): always returns a basic-auth
value, with an empty password when no token resolves. -/
def GetDestinationAuth (env : String → String) (destAuth : Authentication) : GitAuth :=
  let destinationPat := if destAuth.method = token then env destAuth.tokenName else ""
  GitAuth.basic basicAuthUsername destinationPat

/-! ## Error processing (part_001 lines 137-147) -/

/-- The message built at part_001 line 141. -/
def renderErrorMessage (activity url : String) (err : GitErr) : String :=
  "Error while " ++ activity ++ url ++ ": " ++ err.message

/-- `ProcessError` (part_001 lines 138-147): formats a non-nil error other
than already-up-to-date and appends it to the error list. -/
def ProcessError (err : Option GitErr) (activity url : String)
    (allErrors : List String) : List String :=
  let e : String :=
    match err with
    | some er =>
      if er = GitErr.alreadyUpToDate then "" else renderErrorMessage activity url er
    | none => ""
  if e = "" then allErrors else allErrors ++ [e]

/-- Modelled from the spec: the repository's current `ProcessError` (the file
holding it is not under src/; only its test, `Test_ProcessError` in part_002,
is) additionally consults the configured `ignored_errors` substrings: a
rendered message containing any of them is only logged as a warning and is
not appended to the error list. -/
def ProcessErrorIgnoring (ignoredErrors : List String) (err : Option GitErr)
    (activity url : String) (allErrors : List String) : List String :=
  let e : String :=
    match err with
    | some er =>
      if er = GitErr.alreadyUpToDate then "" else renderErrorMessage activity url er
    | none => ""
  if e = "" then allErrors
  else if ignoredErrors.any (fun ig => strContains e ig) then allErrors
  else allErrors ++ [e]

/-- Modelled from the spec: the utils helper `stringInSlice` (its file is not
under src/; part_001 calls it at lines 371 and 396) reports whether a string
occurs in a slice; it decides set membership for the delete-set difference. -/
def stringInSlice (a : String) (list : List String) : Bool :=
  list.any (fun b => b == a)

/-! ## Ref-set fetching (part_001 lines 33-34 and 101-135) -/

/-- part_001 line 33. -/
def refBranchPrefix : String := "refs/heads/"

/-- part_001 line 34. -/
def refTagPrefix : String := "refs/tags/"

/-- Outcome of the remote lookup plus retried listing inside
`GetBranchesAndTagsFromRemote`: the `repository.Remote` call failed (lines
107-110), the retried `ListRemote` failed (lines 114-120), or a list of full
reference names was obtained. -/
inductive RemoteListOutcome where
  | remoteMissing (e : GitErr)
  | listFailed (e : GitErr)
  | refs (refNames : List String)
deriving DecidableEq, Repr

/-- The partition loop of part_001 lines 122-131: branch-prefixed names are
trimmed into the branch list, tag-prefixed names into the tag list, anything
else is dropped. -/
def partitionRefs : List String → List String × List String
  | [] => ([], [])
  | r :: rest =>
    let (bs, ts) := partitionRefs rest
    if strHasPrefix r refBranchPrefix then (strTrimPrefix r refBranchPrefix :: bs, ts)
    else if strHasPrefix r refTagPrefix then (bs, strTrimPrefix r refTagPrefix :: ts)
    else (bs, ts)

/-- `GetBranchesAndTagsFromRemote` (part_001 lines 102-135): on any failure
the still-empty branch and tag lists are returned with the error; on success
the partitioned, sorted lists are returned with no error. -/
def GetBranchesAndTagsFromRemote : RemoteListOutcome → List String × List String × Option GitErr
  | RemoteListOutcome.remoteMissing e => ([], [], some e)
  | RemoteListOutcome.listFailed e => ([], [], some e)
  | RemoteListOutcome.refs l =>
    let (bs, ts) := partitionRefs l
    (sortStrings bs, sortStrings ts, none)

/-! ## The mirror worker (part_001 lines 280-409)

The worker is modelled as a pure function of the outcomes of its external
calls.  Retried operations appear through their post-retry outcome.  The
model records the status records sent on the results channel and a trace of
the external git operations attempted, in order. -/

/-- Status record sent on the results channel (part_001 lines 38-43).  The
wall-clock fields (`LastCloneEnd`, `CloneDuration`, `PushDuration`) measure
real time and are not modelled. -/
structure MirrorStatus where
  errors : List String
deriving DecidableEq, Repr

/-- One attempted external operation of a worker run.  `pushBranch b` is the
force-atomic push of `+refs/heads/b:refs/heads/b` (line 362), `deleteBranch b`
the push of `:refs/heads/b` (line 376), `pushAllTags` the force-atomic push of
the wildcard `+refs/tags/*:refs/tags/*` (line 388), and `deleteTag t` the push
of `:refs/tags/t` (line 401). -/
inductive WorkerStep where
  | clone
  | listSource
  | getOriginRemote
  | fetchBranches
  | createRemote
  | listDestination
  | pushBranch (b : String)
  | deleteBranch (b : String)
  | pushAllTags
  | deleteTag (t : String)
deriving DecidableEq, Repr

/-- Outcomes of the worker's external calls.  Fields holding an
`Option GitErr` give the post-retry outcome of the corresponding retried
operation (`none` = success). -/
structure WorkerEnv where
  cloneResult : Option GitErr
  listSourceOutcome : RemoteListOutcome
  originRemoteErr : Option GitErr
  fetchResult : Option GitErr
  createRemoteErr : Option GitErr
  listDestOutcome : RemoteListOutcome
  pushBranchResult : String → Option GitErr
  deleteBranchResult : String → Option GitErr
  pushTagsResult : Option GitErr
  deleteTagResult : String → Option GitErr

/-- Result of one worker run: the status records sent on the channel and the
trace of attempted operations. -/
structure WorkerRun where
  messages : List MirrorStatus
  trace : List WorkerStep
deriving DecidableEq, Repr

/-- The branch-push loop (part_001 lines 356-367): one retried force push per
source branch, each outcome fed to `ProcessError`. -/
def pushBranchesPhase (env : WorkerEnv) (destination : String) :
    List String → List String × List WorkerStep → List String × List WorkerStep
  | [], acc => acc
  | branch :: rest, acc =>
    pushBranchesPhase env destination rest
      (ProcessError (env.pushBranchResult branch)
        ("pushing branch " ++ branch ++ " to ") destination acc.1,
       acc.2 ++ [WorkerStep.pushBranch branch])

/-- The branch-delete loop (part_001 lines 369-381): destination branches not
present in the source branch list are deleted, each outcome fed to
`ProcessError`. -/
def deleteBranchesPhase (env : WorkerEnv) (destination : String)
    (sourceBranchList : List String) :
    List String → List String × List WorkerStep → List String × List WorkerStep
  | [], acc => acc
  | branch :: rest, acc =>
    deleteBranchesPhase env destination sourceBranchList rest
      (if !stringInSlice branch sourceBranchList then
        (ProcessError (env.deleteBranchResult branch)
          ("removing branch " ++ branch ++ " from ") destination acc.1,
         acc.2 ++ [WorkerStep.deleteBranch branch])
      else acc)

/-- The tag-delete loop (part_001 lines 394-406). -/
def deleteTagsPhase (env : WorkerEnv) (destination : String)
    (sourceTagList : List String) :
    List String → List String × List WorkerStep → List String × List WorkerStep
  | [], acc => acc
  | tag :: rest, acc =>
    deleteTagsPhase env destination sourceTagList rest
      (if !stringInSlice tag sourceTagList then
        (ProcessError (env.deleteTagResult tag)
          ("removing tag " ++ tag ++ " from ") destination acc.1,
         acc.2 ++ [WorkerStep.deleteTag tag])
      else acc)

/-- `MirrorRepository` (part_001 lines 282-409).  Each early-return path sends
exactly the status built so far; the completed run sends the accumulated
errors after the push, delete-branch, push-tags and delete-tag phases. -/
def MirrorRepository (source destination : String) (env : WorkerEnv) : WorkerRun :=
  match env.cloneResult with
  | some e =>
    { messages := [⟨ProcessError (some e) "cloning repository from " source []⟩],
      trace := [WorkerStep.clone] }
  | none =>
    match (GetBranchesAndTagsFromRemote env.listSourceOutcome).2.2 with
    | some e =>
      { messages := [⟨ProcessError (some e) "getting branches and tags from " source []⟩],
        trace := [WorkerStep.clone, WorkerStep.listSource] }
    | none =>
      match env.originRemoteErr with
      | some e =>
        { messages := [⟨ProcessError (some e) "getting source remote for " source []⟩],
          trace := [WorkerStep.clone, WorkerStep.listSource, WorkerStep.getOriginRemote] }
      | none =>
        match env.fetchResult with
        | some e =>
          { messages := [⟨ProcessError (some e) "fetching branches from " source []⟩],
            trace := [WorkerStep.clone, WorkerStep.listSource,
                      WorkerStep.getOriginRemote, WorkerStep.fetchBranches] }
        | none =>
          match env.createRemoteErr with
          | some e =>
            { messages :=
                [⟨ProcessError (some e) "creating remote for " destination []⟩],
              trace := [WorkerStep.clone, WorkerStep.listSource,
                        WorkerStep.getOriginRemote, WorkerStep.fetchBranches,
                        WorkerStep.createRemote] }
          | none =>
            let sourceBranchList := (GetBranchesAndTagsFromRemote env.listSourceOutcome).1
            let sourceTagList := (GetBranchesAndTagsFromRemote env.listSourceOutcome).2.1
            let destListing := GetBranchesAndTagsFromRemote env.listDestOutcome
            let destinationBranchList := destListing.1
            let destinationTagList := destListing.2.1
            let errs0 : List String :=
              match destListing.2.2 with
              | some e =>
                ProcessError (some e) "getting branches and tags from " destination []
              | none => []
            let s1 := pushBranchesPhase env destination sourceBranchList
              (errs0, [WorkerStep.clone, WorkerStep.listSource,
                       WorkerStep.getOriginRemote, WorkerStep.fetchBranches,
                       WorkerStep.createRemote, WorkerStep.listDestination])
            let s2 := deleteBranchesPhase env destination sourceBranchList
              destinationBranchList s1
            let s3 : List String × List WorkerStep :=
              (ProcessError env.pushTagsResult "pushing all tags to " destination s2.1,
               s2.2 ++ [WorkerStep.pushAllTags])
            let s4 := deleteTagsPhase env destination sourceTagList
              destinationTagList s3
            { messages := [⟨s4.1⟩], trace := s4.2 }

/-! ## The orchestrator (part_001 lines 411-461) -/

/-- The capacity of the results channel, the literal at part_001 line 414:
`make(chan MirrorStatus, 100)`. -/
def messagesChannelCapacity : Nat := 100

/-- The error aggregation of the receive loop (part_001 line 434):
`allErrors = append(allErrors, msg.Errors...)` over the received statuses. -/
def aggregatedErrors (msgs : List MirrorStatus) : List String :=
  msgs.foldl (fun acc m => acc ++ m.errors) []

/-- The receive loop of `MirrorRepositories` (part_001 lines 428-446).  The
argument list holds every status that will ever arrive on the channel, in
arrival order; an empty list means the channel stays empty forever, in which
case the `default` branch sleeps and retries indefinitely — modelled as
`none` (the loop never exits).  On exit the accumulated error list and the
number of received results are returned. -/
def receiveLoop (numRepos : Nat) : List MirrorStatus → Nat → List String →
    Option (List String × Nat)
  | [], _, _ => none
  | msg :: rest, receivedResults, allErrors =>
    let received := receivedResults + 1
    let errs := allErrors ++ msg.errors
    if received = numRepos then some (errs, received)
    else receiveLoop numRepos rest received errs

/-- `MirrorRepositories` (part_001 lines 413-461) reduced to its verdict:
`none` if the receive loop never exits, otherwise `some v` where `v` is
`some 1` when the aggregated error list is non-empty (`os.Exit(1)`, line 459)
and `none` when the function returns normally (exit code untouched). -/
def MirrorRepositories (repos : List RepositoryPair) (arrivals : List MirrorStatus) :
    Option (Option Nat) :=
  match receiveLoop repos.length arrivals 0 [] with
  | none => none
  | some (allErrors, _) => some (if 0 < allErrors.length then some 1 else none)

/-- Total number of status records sent across all workers of a run, given
the per-pair call outcomes. -/
def totalStatusSends (repos : List RepositoryPair) (envs : RepositoryPair → WorkerEnv) : Nat :=
  (repos.map (fun p =>
    (MirrorRepository p.source.repositoryURL p.destination.repositoryURL
      (envs p)).messages.length)).sum

/-! ## Concrete instances used to evaluate the model -/

/-- A configured pair, as in the end-to-end scenario. -/
def pairA : RepositoryPair :=
  ⟨⟨"https://example.com/org-1/repo-1", ⟨"", ""⟩⟩,
   ⟨"https://example.com/org-2/repo-1", ⟨"", ""⟩⟩⟩

/-- Call outcomes of a fully successful run over the end-to-end scenario:
source has branches main and dev and tag v1; destination has branches main
and old and tags v1 and v0. -/
def envAllOk : WorkerEnv :=
  { cloneResult := none
  , listSourceOutcome := RemoteListOutcome.refs
      ["refs/heads/main", "refs/heads/dev", "refs/tags/v1"]
  , originRemoteErr := none
  , fetchResult := none
  , createRemoteErr := none
  , listDestOutcome := RemoteListOutcome.refs
      ["refs/heads/main", "refs/heads/old", "refs/tags/v1", "refs/tags/v0"]
  , pushBranchResult := fun _ => none
  , deleteBranchResult := fun _ => none
  , pushTagsResult := none
  , deleteTagResult := fun _ => none }

/-- Same run but the destination listing fails after retries. -/
def envDestListFail : WorkerEnv :=
  { envAllOk with listDestOutcome := RemoteListOutcome.listFailed (GitErr.other "boom") }

/-- Same run but the clone fails permanently. -/
def envCloneFail : WorkerEnv :=
  { envAllOk with cloneResult := some GitErr.authRequired }

/-- Same run but the retried source listing fails. -/
def envListSourceFail : WorkerEnv :=
  { envAllOk with listSourceOutcome := RemoteListOutcome.listFailed (GitErr.other "net") }

/-- Same run but the retried branch fetch fails. -/
def envFetchFail : WorkerEnv :=
  { envAllOk with fetchResult := some (GitErr.other "net") }

/-- Same run but every single branch push fails after retries. -/
def envPushFail : WorkerEnv :=
  { envAllOk with pushBranchResult := fun _ => some (GitErr.other "refused") }

/-- An environment resolving only the variable MY_TOKEN. -/
def envTokenSet : String → String :=
  fun v => if v = "MY_TOKEN" then "s3cr3t" else ""

/-- An environment resolving every variable to the empty string. -/
def envTokenEmpty : String → String := fun _ => ""

/-! ## Helper lemmas -/

lemma append_singleton_ne {α : Type} (l : List α) (x : α) : l ++ [x] ≠ l := by
  intro h
  have := congrArg List.length h
  simp at this

lemma stringInSlice_iff (a : String) (l : List String) :
    stringInSlice a l = true ↔ a ∈ l := by
  simp [stringInSlice, List.any_eq_true]

lemma stringInSlice_eq_false_iff (a : String) (l : List String) :
    stringInSlice a l = false ↔ a ∉ l := by
  rw [← Bool.not_eq_true, not_iff_not, stringInSlice_iff]

lemma containsSeq_iff (sub : List Char) : ∀ (l : List Char),
    containsSeq sub l = true ↔ sub <:+: l
  | [] => by
    simp [containsSeq, List.isEmpty_iff, List.infix_nil]
  | c :: rest => by
    simp [containsSeq, List.isPrefixOf_iff_prefix, containsSeq_iff sub rest,
      List.infix_cons_iff]

lemma strContains_iff (s sub : String) :
    strContains s sub = true ↔ sub.toList <:+: s.toList := by
  rw [strContains, containsSeq_iff]

lemma renderErrorMessage_ne_empty (activity url : String) (er : GitErr) :
    renderErrorMessage activity url er ≠ "" := by
  intro h
  have := congrArg String.length h
  simp [renderErrorMessage, String.length_append] at this
  exact (by decide : ¬ ("Error while " : String).length = 0) this.1.1.1.1

lemma ProcessError_alreadyUpToDate (activity url : String) (allErrors : List String) :
    ProcessError (some GitErr.alreadyUpToDate) activity url allErrors = allErrors := by
  simp [ProcessError]

lemma ProcessError_some (e : GitErr) (activity url : String) (allErrors : List String)
    (h : e ≠ GitErr.alreadyUpToDate) :
    ProcessError (some e) activity url allErrors
      = allErrors ++ [renderErrorMessage activity url e] := by
  simp [ProcessError, h, renderErrorMessage_ne_empty activity url e]

lemma ProcessError_isPrefix (err : Option GitErr) (activity url : String)
    (allErrors : List String) : allErrors <+: ProcessError err activity url allErrors := by
  rcases err with _ | er
  · simp [ProcessError]
  · by_cases h : er = GitErr.alreadyUpToDate
    · simp [ProcessError, h]
    · rw [ProcessError_some er activity url allErrors h]
      exact List.prefix_append _ _

lemma ProcessErrorIgnoring_some (ign : List String) (e : GitErr)
    (activity url : String) (allErrors : List String)
    (h : e ≠ GitErr.alreadyUpToDate) :
    ProcessErrorIgnoring ign (some e) activity url allErrors =
      if ign.any (fun ig => strContains (renderErrorMessage activity url e) ig) then
        allErrors
      else allErrors ++ [renderErrorMessage activity url e] := by
  simp [ProcessErrorIgnoring, h, renderErrorMessage_ne_empty activity url e]

/-! ## Theorems for the retry policy and the already-up-to-date outcome -/

/-- C4: a retried git operation (clone, list-remote, push) whose underlying
call always reports authentication-required is invoked exactly once — the
wrapper marks the error permanent, which stops the backoff immediately — and
the retry reports that permanent failure, for every remaining time budget. -/
theorem retry_stops_on_authRequired (fuel : Nat) :
    retry (fun _ => GitPlainClone (some GitErr.authRequired)) fuel
      = (some GitErr.authRequired, 1) ∧
    retry (fun _ => ListRemote (some GitErr.authRequired)) fuel
      = (some GitErr.authRequired, 1) ∧
    retry (fun _ => PushRefs (some GitErr.authRequired)) fuel
      = (some GitErr.authRequired, 1) := by
  refine ⟨?_, ?_, ?_⟩ <;>
    simp [retry, retryGo, GitPlainClone, ListRemote, PushRefs]

/-- C7: the already-up-to-date outcome is never treated as an error:
`ProcessError` does not append it, `GitFetchBranches` converts it into an
immediate success of the retried fetch, and a push returning it terminates
the backoff after one invocation without `ProcessError` recording anything. -/
theorem alreadyUpToDate_never_error (activity url : String)
    (allErrors : List String) (fuel : Nat) :
    ProcessError (some GitErr.alreadyUpToDate) activity url allErrors = allErrors ∧
    GitFetchBranches (some GitErr.alreadyUpToDate) = none ∧
    retry (fun _ => GitFetchBranches (some GitErr.alreadyUpToDate)) fuel = (none, 1) ∧
    retry (fun _ => PushRefs (some GitErr.alreadyUpToDate)) fuel
      = (some GitErr.alreadyUpToDate, 1) ∧
    ProcessError
      (retry (fun _ => PushRefs (some GitErr.alreadyUpToDate)) fuel).1
      activity url allErrors = allErrors := by
  refine ⟨ProcessError_alreadyUpToDate activity url allErrors, ?_, ?_, ?_, ?_⟩ <;>
    simp [ProcessError, retry, retryGo, GitFetchBranches, PushRefs]

/-- C3: an error is classified as ignored — left out of the error list —
exactly when its rendered message contains one of the configured ignore
substrings, and otherwise it is appended as real; on the test's ignore list
and five errors, exactly the first, second and fifth are appended. -/
theorem processError_ignore_classification (ign : List String) (er : GitErr)
    (activity url : String) (allErrors : List String)
    (h : er ≠ GitErr.alreadyUpToDate) :
    (ProcessErrorIgnoring ign (some er) activity url allErrors = allErrors
      ↔ ∃ ig ∈ ign, ig.toList <:+: (renderErrorMessage activity url er).toList) ∧
    ((¬ ∃ ig ∈ ign, ig.toList <:+: (renderErrorMessage activity url er).toList) →
      ProcessErrorIgnoring ign (some er) activity url allErrors
        = allErrors ++ [renderErrorMessage activity url er]) ∧
    (ProcessErrorIgnoring ["ignored error 1", "ignored error 2"]
      (some (GitErr.other "3 ignored error 3 4 5")) "activity " "https://example.com"
      (ProcessErrorIgnoring ["ignored error 1", "ignored error 2"]
        (some (GitErr.other "2 ignored error 2 3 4")) "activity " "https://example.com"
        (ProcessErrorIgnoring ["ignored error 1", "ignored error 2"]
          (some (GitErr.other "1 ignored error 1 2 3")) "activity " "https://example.com"
          (ProcessErrorIgnoring ["ignored error 1", "ignored error 2"]
            (some (GitErr.other "1 ignored error 3")) "activity " "https://example.com"
            (ProcessErrorIgnoring ["ignored error 1", "ignored error 2"]
              (some (GitErr.other "ignored warning 1")) "activity " "https://example.com"
              []))))
      = ["Error while activity https://example.com: ignored warning 1",
         "Error while activity https://example.com: 1 ignored error 3",
         "Error while activity https://example.com: 3 ignored error 3 4 5"]) := by
  have hrw := ProcessErrorIgnoring_some ign er activity url allErrors h
  refine ⟨?_, ?_, by decide⟩
  · by_cases hany :
      ign.any (fun ig => strContains (renderErrorMessage activity url er) ig) = true
    · rw [hrw, if_pos hany]
      simp only [true_iff, iff_true]
      rcases List.any_eq_true.mp hany with ⟨ig, hig, hcontains⟩
      exact ⟨ig, hig, (strContains_iff _ _).mp hcontains⟩
    · rw [hrw, if_neg hany]
      constructor
      · intro habs
        exact absurd habs (append_singleton_ne _ _)
      · intro hex
        rcases hex with ⟨ig, hig, hinf⟩
        exact absurd (List.any_eq_true.mpr
          ⟨ig, hig, (strContains_iff _ _).mpr hinf⟩) hany
  · intro hnex
    have hany :
        ign.any (fun ig => strContains (renderErrorMessage activity url er) ig) ≠ true := by
      intro habs
      rcases List.any_eq_true.mp habs with ⟨ig, hig, hcontains⟩
      exact hnex ⟨ig, hig, (strContains_iff _ _).mp hcontains⟩
    rw [hrw, if_neg hany]

/-! ## Worker phase lemmas -/

lemma pushBranchesPhase_trace (env : WorkerEnv) (d : String) :
    ∀ (l : List String) (acc : List String × List WorkerStep),
      (pushBranchesPhase env d l acc).2 = acc.2 ++ l.map WorkerStep.pushBranch
  | [], acc => by simp [pushBranchesPhase]
  | b :: rest, acc => by
    rw [pushBranchesPhase, pushBranchesPhase_trace env d rest]
    simp

lemma pushBranchesPhase_errsPrefix (env : WorkerEnv) (d : String) :
    ∀ (l : List String) (acc : List String × List WorkerStep),
      acc.1 <+: (pushBranchesPhase env d l acc).1
  | [], acc => List.prefix_refl _
  | b :: rest, acc => by
    rw [pushBranchesPhase]
    have h2 := pushBranchesPhase_errsPrefix env d rest
      (ProcessError (env.pushBranchResult b) ("pushing branch " ++ b ++ " to ") d acc.1,
       acc.2 ++ [WorkerStep.pushBranch b])
    dsimp only at h2
    exact List.IsPrefix.trans (ProcessError_isPrefix _ _ _ _) h2

lemma deleteBranchesPhase_trace (env : WorkerEnv) (d : String) (sb : List String) :
    ∀ (l : List String) (acc : List String × List WorkerStep),
      (deleteBranchesPhase env d sb l acc).2
        = acc.2 ++ (l.filter (fun b => !stringInSlice b sb)).map WorkerStep.deleteBranch
  | [], acc => by simp [deleteBranchesPhase]
  | b :: rest, acc => by
    rw [deleteBranchesPhase, deleteBranchesPhase_trace env d sb rest]
    by_cases hmem : stringInSlice b sb
    · simp [hmem, List.filter_cons]
    · simp only [Bool.not_eq_true] at hmem
      simp [hmem, List.filter_cons]

lemma deleteBranchesPhase_errsPrefix (env : WorkerEnv) (d : String) (sb : List String) :
    ∀ (l : List String) (acc : List String × List WorkerStep),
      acc.1 <+: (deleteBranchesPhase env d sb l acc).1
  | [], acc => List.prefix_refl _
  | b :: rest, acc => by
    rw [deleteBranchesPhase]
    by_cases hmem : stringInSlice b sb
    · simpa [hmem] using deleteBranchesPhase_errsPrefix env d sb rest acc
    · simp only [Bool.not_eq_true] at hmem
      simp only [hmem, Bool.not_false, if_true]
      have h2 := deleteBranchesPhase_errsPrefix env d sb rest
        (ProcessError (env.deleteBranchResult b) ("removing branch " ++ b ++ " from ") d acc.1,
         acc.2 ++ [WorkerStep.deleteBranch b])
      dsimp only at h2
      exact List.IsPrefix.trans (ProcessError_isPrefix _ _ _ _) h2

lemma deleteTagsPhase_trace (env : WorkerEnv) (d : String) (st : List String) :
    ∀ (l : List String) (acc : List String × List WorkerStep),
      (deleteTagsPhase env d st l acc).2
        = acc.2 ++ (l.filter (fun t => !stringInSlice t st)).map WorkerStep.deleteTag
  | [], acc => by simp [deleteTagsPhase]
  | t :: rest, acc => by
    rw [deleteTagsPhase, deleteTagsPhase_trace env d st rest]
    by_cases hmem : stringInSlice t st
    · simp [hmem, List.filter_cons]
    · simp only [Bool.not_eq_true] at hmem
      simp [hmem, List.filter_cons]

lemma deleteTagsPhase_errsPrefix (env : WorkerEnv) (d : String) (st : List String) :
    ∀ (l : List String) (acc : List String × List WorkerStep),
      acc.1 <+: (deleteTagsPhase env d st l acc).1
  | [], acc => List.prefix_refl _
  | t :: rest, acc => by
    rw [deleteTagsPhase]
    by_cases hmem : stringInSlice t st
    · simpa [hmem] using deleteTagsPhase_errsPrefix env d st rest acc
    · simp only [Bool.not_eq_true] at hmem
      simp only [hmem, Bool.not_false, if_true]
      have h2 := deleteTagsPhase_errsPrefix env d st rest
        (ProcessError (env.deleteTagResult t) ("removing tag " ++ t ++ " from ") d acc.1,
         acc.2 ++ [WorkerStep.deleteTag t])
      dsimp only at h2
      exact List.IsPrefix.trans (ProcessError_isPrefix _ _ _ _) h2

/-- On a run that reaches the push phases, the trace is the six preparation
steps followed by one push per source branch, one delete per destination
branch absent from the source, the wildcard tag push, and one delete per
destination tag absent from the source — independent of every push and
delete outcome and of whether the destination listing failed. -/
lemma mirrorRepository_trace (s d : String) (env : WorkerEnv)
    (hc : env.cloneResult = none)
    (hs : (GetBranchesAndTagsFromRemote env.listSourceOutcome).2.2 = none)
    (ho : env.originRemoteErr = none)
    (hf : env.fetchResult = none)
    (hr : env.createRemoteErr = none) :
    (MirrorRepository s d env).trace =
      [WorkerStep.clone, WorkerStep.listSource, WorkerStep.getOriginRemote,
       WorkerStep.fetchBranches, WorkerStep.createRemote, WorkerStep.listDestination]
      ++ ((GetBranchesAndTagsFromRemote env.listSourceOutcome).1).map WorkerStep.pushBranch
      ++ (((GetBranchesAndTagsFromRemote env.listDestOutcome).1).filter
            (fun b => !stringInSlice b
              (GetBranchesAndTagsFromRemote env.listSourceOutcome).1)).map
          WorkerStep.deleteBranch
      ++ [WorkerStep.pushAllTags]
      ++ (((GetBranchesAndTagsFromRemote env.listDestOutcome).2.1).filter
            (fun t => !stringInSlice t
              (GetBranchesAndTagsFromRemote env.listSourceOutcome).2.1)).map
          WorkerStep.deleteTag := by
  simp only [MirrorRepository, hc, hs, ho, hf, hr]
  simp [deleteTagsPhase_trace, deleteBranchesPhase_trace, pushBranchesPhase_trace,
    List.append_assoc]

/-- Every return path of the worker sends exactly one status record. -/
lemma mirrorRepository_messages_length (s d : String) (env : WorkerEnv) :
    (MirrorRepository s d env).messages.length = 1 := by
  cases hc : env.cloneResult with
  | some e => simp [MirrorRepository, hc]
  | none =>
    cases hs : (GetBranchesAndTagsFromRemote env.listSourceOutcome).2.2 with
    | some e => simp [MirrorRepository, hc, hs]
    | none =>
      cases ho : env.originRemoteErr with
      | some e => simp [MirrorRepository, hc, hs, ho]
      | none =>
        cases hf : env.fetchResult with
        | some e => simp [MirrorRepository, hc, hs, ho, hf]
        | none =>
          cases hr : env.createRemoteErr with
          | some e => simp [MirrorRepository, hc, hs, ho, hf, hr]
          | none => simp [MirrorRepository, hc, hs, ho, hf, hr]

/-- A failed listing returns the still-empty branch and tag lists. -/
lemma getBranchesAndTags_err_empty (o : RemoteListOutcome) (e : GitErr)
    (h : (GetBranchesAndTagsFromRemote o).2.2 = some e) :
    (GetBranchesAndTagsFromRemote o).1 = [] ∧
    (GetBranchesAndTagsFromRemote o).2.1 = [] := by
  cases o with
  | remoteMissing e2 => simp [GetBranchesAndTagsFromRemote]
  | listFailed e2 => simp [GetBranchesAndTagsFromRemote]
  | refs l => simp [GetBranchesAndTagsFromRemote] at h

/-! ## Theorems about the worker -/

/-- C1: on a run whose source and destination listings succeeded, the worker
pushes exactly the source branches (one push per branch, with multiplicity),
deletes exactly the destination branches not among the source branches and
the destination tags not among the source tags — membership decided by set
difference, so the delete sets depend only on membership, not on order — and
pushes the tag wildcard. -/
theorem mirrorRepository_plan (s d : String) (env : WorkerEnv)
    (sb st db dt : List String)
    (hc : env.cloneResult = none)
    (hs : GetBranchesAndTagsFromRemote env.listSourceOutcome = (sb, st, none))
    (ho : env.originRemoteErr = none)
    (hf : env.fetchResult = none)
    (hr : env.createRemoteErr = none)
    (hd : GetBranchesAndTagsFromRemote env.listDestOutcome = (db, dt, none)) :
    (∀ b, WorkerStep.pushBranch b ∈ (MirrorRepository s d env).trace ↔ b ∈ sb) ∧
    (∀ b, (MirrorRepository s d env).trace.count (WorkerStep.pushBranch b)
        = sb.count b) ∧
    (∀ b, WorkerStep.deleteBranch b ∈ (MirrorRepository s d env).trace
        ↔ b ∈ db ∧ b ∉ sb) ∧
    (∀ t, WorkerStep.deleteTag t ∈ (MirrorRepository s d env).trace
        ↔ t ∈ dt ∧ t ∉ st) ∧
    WorkerStep.pushAllTags ∈ (MirrorRepository s d env).trace := by
  have hs2 : (GetBranchesAndTagsFromRemote env.listSourceOutcome).2.2 = none := by
    rw [hs]
  have htr := mirrorRepository_trace s d env hc hs2 ho hf hr
  rw [hs, hd] at htr
  simp only [] at htr
  have hinj : Function.Injective WorkerStep.pushBranch := by
    intro a b hab
    injection hab
  refine ⟨?_, ?_, ?_, ?_, ?_⟩
  · intro b
    rw [htr]
    simp [stringInSlice_iff]
  · intro b
    rw [htr]
    simp only [List.count_append]
    rw [List.count_map_of_injective sb WorkerStep.pushBranch hinj b]
    have h1 : (List.count (WorkerStep.pushBranch b)
        [WorkerStep.clone, WorkerStep.listSource, WorkerStep.getOriginRemote,
         WorkerStep.fetchBranches, WorkerStep.createRemote,
         WorkerStep.listDestination]) = 0 := by
      simp [List.count_eq_zero]
    have h2 : (List.count (WorkerStep.pushBranch b)
        ((db.filter (fun x => !stringInSlice x sb)).map WorkerStep.deleteBranch)) = 0 := by
      simp [List.count_eq_zero]
    have h3 : (List.count (WorkerStep.pushBranch b) [WorkerStep.pushAllTags]) = 0 := by
      simp [List.count_eq_zero]
    have h4 : (List.count (WorkerStep.pushBranch b)
        ((dt.filter (fun x => !stringInSlice x st)).map WorkerStep.deleteTag)) = 0 := by
      simp [List.count_eq_zero]
    omega
  · intro b
    rw [htr]
    simp [List.mem_filter, stringInSlice_eq_false_iff]
  · intro t
    rw [htr]
    simp [List.mem_filter, stringInSlice_eq_false_iff]
  · rw [htr]
    simp

/-- C5: when listing the destination fails on a run whose earlier states all
succeeded, the worker does not return early: it still sends exactly one
status, the rendered listing failure is in that status's error list, the
destination branch and tag sets are taken to be empty, and the trace still
attempts every source-branch push and the tag push while computing no delete
operation. -/
theorem mirrorRepository_destListing_failure (s d : String) (env : WorkerEnv)
    (sb st : List String) (e : GitErr)
    (hc : env.cloneResult = none)
    (hs : GetBranchesAndTagsFromRemote env.listSourceOutcome = (sb, st, none))
    (ho : env.originRemoteErr = none)
    (hf : env.fetchResult = none)
    (hr : env.createRemoteErr = none)
    (hd : (GetBranchesAndTagsFromRemote env.listDestOutcome).2.2 = some e)
    (he : e ≠ GitErr.alreadyUpToDate) :
    (GetBranchesAndTagsFromRemote env.listDestOutcome).1 = [] ∧
    (GetBranchesAndTagsFromRemote env.listDestOutcome).2.1 = [] ∧
    (MirrorRepository s d env).trace =
      [WorkerStep.clone, WorkerStep.listSource, WorkerStep.getOriginRemote,
       WorkerStep.fetchBranches, WorkerStep.createRemote, WorkerStep.listDestination]
      ++ sb.map WorkerStep.pushBranch ++ [WorkerStep.pushAllTags] ∧
    (MirrorRepository s d env).messages.length = 1 ∧
    (∀ ms ∈ (MirrorRepository s d env).messages,
      renderErrorMessage "getting branches and tags from " d e ∈ ms.errors) := by
  have hs2 : (GetBranchesAndTagsFromRemote env.listSourceOutcome).2.2 = none := by
    rw [hs]
  obtain ⟨hdb, hdt⟩ := getBranchesAndTags_err_empty _ e hd
  have htr := mirrorRepository_trace s d env hc hs2 ho hf hr
  rw [hs, hdb, hdt] at htr
  simp only [List.filter_nil, List.map_nil, List.append_nil] at htr
  refine ⟨hdb, hdt, ?_, mirrorRepository_messages_length s d env, ?_⟩
  · rw [htr]
  · intro ms hms
    simp only [MirrorRepository, hc, hs2, ho, hf, hr, hd] at hms
    simp only [List.mem_singleton] at hms
    subst hms
    simp only []
    have hstart : renderErrorMessage "getting branches and tags from " d e ∈
        (ProcessError (some e) "getting branches and tags from " d []) := by
      rw [ProcessError_some e _ d [] he]
      simp
    have hp1 := pushBranchesPhase_errsPrefix env d
      (GetBranchesAndTagsFromRemote env.listSourceOutcome).1
      (ProcessError (some e) "getting branches and tags from " d [],
       [WorkerStep.clone, WorkerStep.listSource, WorkerStep.getOriginRemote,
        WorkerStep.fetchBranches, WorkerStep.createRemote, WorkerStep.listDestination])
    have hp2 := deleteBranchesPhase_errsPrefix env d
      (GetBranchesAndTagsFromRemote env.listSourceOutcome).1
      (GetBranchesAndTagsFromRemote env.listDestOutcome).1
      (pushBranchesPhase env d (GetBranchesAndTagsFromRemote env.listSourceOutcome).1
        (ProcessError (some e) "getting branches and tags from " d [],
         [WorkerStep.clone, WorkerStep.listSource, WorkerStep.getOriginRemote,
          WorkerStep.fetchBranches, WorkerStep.createRemote, WorkerStep.listDestination]))
    have hp3 : (deleteBranchesPhase env d
        (GetBranchesAndTagsFromRemote env.listSourceOutcome).1
        (GetBranchesAndTagsFromRemote env.listDestOutcome).1
        (pushBranchesPhase env d (GetBranchesAndTagsFromRemote env.listSourceOutcome).1
          (ProcessError (some e) "getting branches and tags from " d [],
           [WorkerStep.clone, WorkerStep.listSource, WorkerStep.getOriginRemote,
            WorkerStep.fetchBranches, WorkerStep.createRemote,
            WorkerStep.listDestination]))).1 <+:
        ProcessError env.pushTagsResult "pushing all tags to " d
          (deleteBranchesPhase env d
            (GetBranchesAndTagsFromRemote env.listSourceOutcome).1
            (GetBranchesAndTagsFromRemote env.listDestOutcome).1
            (pushBranchesPhase env d
              (GetBranchesAndTagsFromRemote env.listSourceOutcome).1
              (ProcessError (some e) "getting branches and tags from " d [],
               [WorkerStep.clone, WorkerStep.listSource, WorkerStep.getOriginRemote,
                WorkerStep.fetchBranches, WorkerStep.createRemote,
                WorkerStep.listDestination]))).1 :=
      ProcessError_isPrefix _ _ _ _
    have hp4 := deleteTagsPhase_errsPrefix env d
      (GetBranchesAndTagsFromRemote env.listSourceOutcome).2.1
      (GetBranchesAndTagsFromRemote env.listDestOutcome).2.1
      (ProcessError env.pushTagsResult "pushing all tags to " d
        (deleteBranchesPhase env d
          (GetBranchesAndTagsFromRemote env.listSourceOutcome).1
          (GetBranchesAndTagsFromRemote env.listDestOutcome).1
          (pushBranchesPhase env d
            (GetBranchesAndTagsFromRemote env.listSourceOutcome).1
            (ProcessError (some e) "getting branches and tags from " d [],
             [WorkerStep.clone, WorkerStep.listSource, WorkerStep.getOriginRemote,
              WorkerStep.fetchBranches, WorkerStep.createRemote,
              WorkerStep.listDestination]))).1,
       (deleteBranchesPhase env d
          (GetBranchesAndTagsFromRemote env.listSourceOutcome).1
          (GetBranchesAndTagsFromRemote env.listDestOutcome).1
          (pushBranchesPhase env d
            (GetBranchesAndTagsFromRemote env.listSourceOutcome).1
            (ProcessError (some e) "getting branches and tags from " d [],
             [WorkerStep.clone, WorkerStep.listSource, WorkerStep.getOriginRemote,
              WorkerStep.fetchBranches, WorkerStep.createRemote,
              WorkerStep.listDestination]))).2 ++ [WorkerStep.pushAllTags])
    exact (((hp1.trans hp2).trans hp3).trans hp4).subset hstart

/-- C6: a clone, source-listing or branch-fetch failure is terminal — the
trace stops at the failed step, so no remote is created and no push or
delete is attempted, and the single status carries only that error — while
on a run that reaches the push phases the trace contains every per-ref push
and delete operation whatever the individual push and delete outcomes are. -/
theorem mirrorRepository_failure_propagation (s d : String) (env : WorkerEnv) :
    (∀ e, env.cloneResult = some e → e ≠ GitErr.alreadyUpToDate →
      MirrorRepository s d env =
        { messages := [⟨[renderErrorMessage "cloning repository from " s e]⟩],
          trace := [WorkerStep.clone] }) ∧
    (∀ e, env.cloneResult = none →
      (GetBranchesAndTagsFromRemote env.listSourceOutcome).2.2 = some e →
      e ≠ GitErr.alreadyUpToDate →
      MirrorRepository s d env =
        { messages :=
            [⟨[renderErrorMessage "getting branches and tags from " s e]⟩],
          trace := [WorkerStep.clone, WorkerStep.listSource] }) ∧
    (∀ e, env.cloneResult = none →
      (GetBranchesAndTagsFromRemote env.listSourceOutcome).2.2 = none →
      env.originRemoteErr = none →
      env.fetchResult = some e → e ≠ GitErr.alreadyUpToDate →
      MirrorRepository s d env =
        { messages := [⟨[renderErrorMessage "fetching branches from " s e]⟩],
          trace := [WorkerStep.clone, WorkerStep.listSource,
                    WorkerStep.getOriginRemote, WorkerStep.fetchBranches] }) ∧
    (env.cloneResult = none →
      (GetBranchesAndTagsFromRemote env.listSourceOutcome).2.2 = none →
      env.originRemoteErr = none → env.fetchResult = none →
      env.createRemoteErr = none →
      (MirrorRepository s d env).trace =
        [WorkerStep.clone, WorkerStep.listSource, WorkerStep.getOriginRemote,
         WorkerStep.fetchBranches, WorkerStep.createRemote,
         WorkerStep.listDestination]
        ++ ((GetBranchesAndTagsFromRemote env.listSourceOutcome).1).map
            WorkerStep.pushBranch
        ++ (((GetBranchesAndTagsFromRemote env.listDestOutcome).1).filter
              (fun b => !stringInSlice b
                (GetBranchesAndTagsFromRemote env.listSourceOutcome).1)).map
            WorkerStep.deleteBranch
        ++ [WorkerStep.pushAllTags]
        ++ (((GetBranchesAndTagsFromRemote env.listDestOutcome).2.1).filter
              (fun t => !stringInSlice t
                (GetBranchesAndTagsFromRemote env.listSourceOutcome).2.1)).map
            WorkerStep.deleteTag) := by
  refine ⟨?_, ?_, ?_, ?_⟩
  · intro e hc he
    simp [MirrorRepository, hc, ProcessError_some e _ s [] he]
  · intro e hc hs he
    simp [MirrorRepository, hc, hs, ProcessError_some e _ s [] he]
  · intro e hc hs ho hf he
    simp [MirrorRepository, hc, hs, ho, hf, ProcessError_some e _ s [] he]
  · intro hc hs ho hf hr
    exact mirrorRepository_trace s d env hc hs ho hf hr

/-! ## Orchestrator lemmas -/

lemma foldl_errors_append (l : List MirrorStatus) :
    ∀ (acc : List String),
      l.foldl (fun a m => a ++ m.errors) acc
        = acc ++ l.foldl (fun a m => a ++ m.errors) [] := by
  induction l with
  | nil => intro acc; simp
  | cons m rest ih =>
    intro acc
    rw [List.foldl_cons, List.foldl_cons, ih (acc ++ m.errors), ih ([] ++ m.errors)]
    simp

lemma aggregatedErrors_cons (m : MirrorStatus) (rest : List MirrorStatus) :
    aggregatedErrors (m :: rest) = m.errors ++ aggregatedErrors rest := by
  unfold aggregatedErrors
  rw [List.foldl_cons, foldl_errors_append rest ([] ++ m.errors)]
  simp

/-- A non-empty arrival list of length `n - k` drives the receive loop from
`k` received results to termination with exactly `n` received results and the
errors of every arrival appended in order. -/
lemma receiveLoop_complete (arrivals : List MirrorStatus) :
    ∀ (k : Nat) (acc : List String), arrivals ≠ [] →
      receiveLoop (k + arrivals.length) arrivals k acc
        = some (acc ++ aggregatedErrors arrivals, k + arrivals.length) := by
  induction arrivals with
  | nil => intro k acc h; exact absurd rfl h
  | cons m rest ih =>
    intro k acc _
    cases rest with
    | nil =>
      simp [receiveLoop, aggregatedErrors]
    | cons m2 r2 =>
      have harith : k + (m :: m2 :: r2).length = k + 1 + (m2 :: r2).length := by
        simp only [List.length_cons]
        omega
      have hne : ¬ (k + 1 = k + (m :: m2 :: r2).length) := by
        simp only [List.length_cons]
        omega
      have hunfold : receiveLoop (k + (m :: m2 :: r2).length) (m :: m2 :: r2) k acc
          = if k + 1 = k + (m :: m2 :: r2).length
            then some (acc ++ m.errors, k + 1)
            else receiveLoop (k + (m :: m2 :: r2).length) (m2 :: r2) (k + 1)
              (acc ++ m.errors) := rfl
      rw [hunfold, if_neg hne, harith,
        ih (k + 1) (acc ++ m.errors) (List.cons_ne_nil m2 r2)]
      simp [aggregatedErrors_cons, List.append_assoc]

/-- Each worker of a run sends exactly one status, so the total number of
sends equals the pair count. -/
lemma totalStatusSends_eq_length (repos : List RepositoryPair)
    (envs : RepositoryPair → WorkerEnv) :
    totalStatusSends repos envs = repos.length := by
  induction repos with
  | nil => rfl
  | cons p rest ih =>
    unfold totalStatusSends at ih ⊢
    rw [List.map_cons, List.sum_cons, mirrorRepository_messages_length, ih,
      List.length_cons]
    omega

/-! ## Theorems about the orchestrator -/

/-- C2: once every pair's status has been received, the orchestrator exits
with code 1 exactly when the error list aggregated from all worker statuses
is non-empty, and performs no exit when it is empty. -/
theorem mirrorRepositories_exit_verdict (repos : List RepositoryPair)
    (arrivals : List MirrorStatus)
    (hlen : arrivals.length = repos.length)
    (hpos : 0 < repos.length) :
    (MirrorRepositories repos arrivals = some (some 1)
      ↔ aggregatedErrors arrivals ≠ []) ∧
    (aggregatedErrors arrivals = [] → MirrorRepositories repos arrivals = some none) := by
  have harr : arrivals ≠ [] := by
    intro h
    rw [h] at hlen
    simp at hlen
    omega
  have hloop := receiveLoop_complete arrivals 0 [] harr
  rw [Nat.zero_add] at hloop
  simp only [List.nil_append] at hloop
  unfold MirrorRepositories
  rw [← hlen, hloop]
  constructor
  · constructor
    · intro h1 h2
      rw [h2] at h1
      simp at h1
    · intro hne
      have hlenpos : 0 < (aggregatedErrors arrivals).length := List.length_pos.mpr hne
      simp [hlenpos]
  · intro hagg
    simp [hagg]

/-- C8 counterexample: with zero configured pairs the receive loop never
exits — the `receivedResults == len(repos)` check is reachable only after a
receive, and nothing ever arrives — even though one status per configured
pair (zero statuses) has already been received; `none` models a loop that
never terminates. -/
theorem receiveLoop_zero_pairs_diverges : receiveLoop 0 [] 0 [] = none := rfl

/-- C8 (amended): every worker run sends exactly one status record on every
return path, and for every non-empty pair list the receive loop terminates
exactly upon receiving one status per configured pair, whatever the arrival
order. -/
theorem worker_single_status_and_drain :
    (∀ (s d : String) (env : WorkerEnv),
      (MirrorRepository s d env).messages.length = 1) ∧
    (∀ (n : Nat) (arrivals : List MirrorStatus), 0 < n → arrivals.length = n →
      receiveLoop n arrivals 0 [] = some (aggregatedErrors arrivals, n)) ∧
    (∀ (n : Nat) (arrivals arrivals2 : List MirrorStatus), 0 < n →
      arrivals.length = n → arrivals.Perm arrivals2 →
      receiveLoop n arrivals2 0 [] = some (aggregatedErrors arrivals2, n)) := by
  have hdrain : ∀ (n : Nat) (arrivals : List MirrorStatus), 0 < n →
      arrivals.length = n →
      receiveLoop n arrivals 0 [] = some (aggregatedErrors arrivals, n) := by
    intro n arrivals hpos hlen
    have harr : arrivals ≠ [] := by
      intro h
      rw [h] at hlen
      simp at hlen
      omega
    have hloop := receiveLoop_complete arrivals 0 [] harr
    rw [Nat.zero_add] at hloop
    simp only [List.nil_append] at hloop
    rw [← hlen]
    exact hloop
  refine ⟨mirrorRepository_messages_length, hdrain, ?_⟩
  intro n arrivals arrivals2 hpos hlen hperm
  refine hdrain n arrivals2 hpos ?_
  rw [← hperm.length_eq]
  exact hlen

/-- C9 counterexample: for the destination, an unresolvable token does not
degrade to anonymous — `GetDestinationAuth` always attaches a basic-auth
value, here with an empty password. -/
theorem destinationAuth_not_anonymous :
    GetDestinationAuth envTokenEmpty ⟨"token", "MY_TOKEN"⟩
      = GitAuth.basic basicAuthUsername "" ∧
    GitAuth.basic basicAuthUsername "" ≠ GitAuth.noAuth := by
  constructor
  · decide
  · decide

/-- C9 (amended): a token resolving to a non-empty secret yields basic auth
with the fixed non-empty username and that secret for every option builder;
an empty or absent token makes the source-side clone, list and fetch options
anonymous, while the destination auth is always a basic-auth value whose
password is then empty. -/
theorem auth_presented (env : String → String) (source refSpec : String)
    (a : Authentication) :
    basicAuthUsername ≠ "" ∧
    (a.method = token → env a.tokenName ≠ "" →
      GetCloneOptions env source a
          = { url := source,
              auth := GitAuth.basic basicAuthUsername (env a.tokenName) } ∧
      GetListOptions env a = GitAuth.basic basicAuthUsername (env a.tokenName) ∧
      GetFetchOptions env refSpec a
          = { refSpecs := [refSpec],
              auth := GitAuth.basic basicAuthUsername (env a.tokenName) } ∧
      GetDestinationAuth env a = GitAuth.basic basicAuthUsername (env a.tokenName)) ∧
    (a.method ≠ token ∨ env a.tokenName = "" →
      (GetCloneOptions env source a).auth = GitAuth.noAuth ∧
      GetListOptions env a = GitAuth.noAuth ∧
      (GetFetchOptions env refSpec a).auth = GitAuth.noAuth ∧
      GetDestinationAuth env a = GitAuth.basic basicAuthUsername "") := by
  refine ⟨by decide, ?_, ?_⟩
  · intro hm ht
    refine ⟨?_, ?_, ?_, ?_⟩ <;>
      simp [GetCloneOptions, GetListOptions, GetFetchOptions, GetDestinationAuth,
        hm, ht]
  · intro hcase
    have hpat : (if a.method = token then env a.tokenName else "") = "" := by
      rcases hcase with h | h
      · rw [if_neg h]
      · by_cases hm : a.method = token
        · rw [if_pos hm]
          exact h
        · rw [if_neg hm]
    refine ⟨?_, ?_, ?_, ?_⟩ <;>
      simp [GetCloneOptions, GetListOptions, GetFetchOptions, GetDestinationAuth,
        hpat]

/-- C10 counterexample: the results channel is created with the constant
capacity 100, not with the pair count — for a one-pair list the two differ. -/
theorem messagesChannel_capacity_not_pair_count :
    messagesChannelCapacity ≠ ([pairA] : List RepositoryPair).length := by
  decide

/-- C10 (amended): the channel capacity is the constant 100, independent of
the configured pairs, and since every worker sends exactly one status the
total number of sends equals the pair count, which stays within the capacity
whenever at most 100 pairs are configured. -/
theorem messagesChannel_capacity_amended (repos : List RepositoryPair)
    (envs : RepositoryPair → WorkerEnv) (h : repos.length ≤ 100) :
    messagesChannelCapacity = 100 ∧
    totalStatusSends repos envs = repos.length ∧
    totalStatusSends repos envs ≤ messagesChannelCapacity := by
  refine ⟨rfl, totalStatusSends_eq_length repos envs, ?_⟩
  rw [totalStatusSends_eq_length repos envs]
  exact h

/-! ## Witnesses: the theorems evaluated at concrete inputs -/

/-- Witness for the plan theorem on the end-to-end scenario. -/
theorem mirrorRepository_plan_witness :
    (WorkerStep.pushBranch "dev" ∈ (MirrorRepository "S" "D" envAllOk).trace
      ↔ "dev" ∈ (["dev", "main"] : List String)) ∧
    ((MirrorRepository "S" "D" envAllOk).trace.count (WorkerStep.pushBranch "dev")
      = (["dev", "main"] : List String).count "dev") ∧
    (WorkerStep.deleteBranch "old" ∈ (MirrorRepository "S" "D" envAllOk).trace
      ↔ "old" ∈ (["main", "old"] : List String)
        ∧ "old" ∉ (["dev", "main"] : List String)) ∧
    (WorkerStep.deleteTag "v0" ∈ (MirrorRepository "S" "D" envAllOk).trace
      ↔ "v0" ∈ (["v0", "v1"] : List String) ∧ "v0" ∉ (["v1"] : List String)) ∧
    WorkerStep.pushAllTags ∈ (MirrorRepository "S" "D" envAllOk).trace := by
  have h := mirrorRepository_plan "S" "D" envAllOk ["dev", "main"] ["v1"]
    ["main", "old"] ["v0", "v1"] rfl (by decide) rfl rfl rfl (by decide)
  exact ⟨h.1 "dev", h.2.1 "dev", h.2.2.1 "old", h.2.2.2.1 "v0", h.2.2.2.2⟩

/-- Witness for the exit-verdict theorem on one pair, in both a failing and a
clean run. -/
theorem mirrorRepositories_exit_verdict_witness :
    (MirrorRepositories [pairA] [⟨["boom"]⟩] = some (some 1)
      ↔ aggregatedErrors [⟨["boom"]⟩] ≠ []) ∧
    MirrorRepositories [pairA] [⟨[]⟩] = some none := by
  exact ⟨(mirrorRepositories_exit_verdict [pairA] [⟨["boom"]⟩] rfl (by decide)).1,
    (mirrorRepositories_exit_verdict [pairA] [⟨[]⟩] rfl (by decide)).2 (by decide)⟩

/-- Witness for the ignore-classification theorem: the five-error test chain
evaluated concretely. -/
theorem processError_ignore_classification_witness :
    ProcessErrorIgnoring ["ignored error 1", "ignored error 2"]
      (some (GitErr.other "3 ignored error 3 4 5")) "activity " "https://example.com"
      (ProcessErrorIgnoring ["ignored error 1", "ignored error 2"]
        (some (GitErr.other "2 ignored error 2 3 4")) "activity " "https://example.com"
        (ProcessErrorIgnoring ["ignored error 1", "ignored error 2"]
          (some (GitErr.other "1 ignored error 1 2 3")) "activity " "https://example.com"
          (ProcessErrorIgnoring ["ignored error 1", "ignored error 2"]
            (some (GitErr.other "1 ignored error 3")) "activity " "https://example.com"
            (ProcessErrorIgnoring ["ignored error 1", "ignored error 2"]
              (some (GitErr.other "ignored warning 1")) "activity " "https://example.com"
              []))))
      = ["Error while activity https://example.com: ignored warning 1",
         "Error while activity https://example.com: 1 ignored error 3",
         "Error while activity https://example.com: 3 ignored error 3 4 5"] :=
  (processError_ignore_classification ["ignored error 1", "ignored error 2"]
    (GitErr.other "3 ignored error 3 4 5") "activity " "https://example.com" []
    (by decide)).2.2

/-- Witness for the destination-listing-failure theorem: pushes still happen,
no delete is computed, and the run still emits one status. -/
theorem mirrorRepository_destListing_failure_witness :
    (MirrorRepository "S" "D" envDestListFail).trace =
      [WorkerStep.clone, WorkerStep.listSource, WorkerStep.getOriginRemote,
       WorkerStep.fetchBranches, WorkerStep.createRemote, WorkerStep.listDestination]
      ++ (["dev", "main"] : List String).map WorkerStep.pushBranch
      ++ [WorkerStep.pushAllTags] ∧
    (MirrorRepository "S" "D" envDestListFail).messages.length = 1 := by
  have h := mirrorRepository_destListing_failure "S" "D" envDestListFail
    ["dev", "main"] ["v1"] (GitErr.other "boom") rfl (by decide) rfl rfl rfl
    (by decide) (by decide)
  exact ⟨h.2.2.1, h.2.2.2.1⟩

/-- Witness for the failure-propagation theorem: a permanent clone failure, a
source-listing failure and a fetch failure each stop the run at the failed
step with exactly that error, while with every branch push failing the trace
still contains every per-ref operation. -/
theorem mirrorRepository_failure_propagation_witness :
    MirrorRepository "S" "D" envCloneFail =
      { messages :=
          [⟨[renderErrorMessage "cloning repository from " "S" GitErr.authRequired]⟩],
        trace := [WorkerStep.clone] } ∧
    MirrorRepository "S" "D" envListSourceFail =
      { messages :=
          [⟨[renderErrorMessage "getting branches and tags from " "S"
              (GitErr.other "net")]⟩],
        trace := [WorkerStep.clone, WorkerStep.listSource] } ∧
    MirrorRepository "S" "D" envFetchFail =
      { messages :=
          [⟨[renderErrorMessage "fetching branches from " "S" (GitErr.other "net")]⟩],
        trace := [WorkerStep.clone, WorkerStep.listSource,
                  WorkerStep.getOriginRemote, WorkerStep.fetchBranches] } ∧
    (MirrorRepository "S" "D" envPushFail).trace =
      [WorkerStep.clone, WorkerStep.listSource, WorkerStep.getOriginRemote,
       WorkerStep.fetchBranches, WorkerStep.createRemote, WorkerStep.listDestination,
       WorkerStep.pushBranch "dev", WorkerStep.pushBranch "main",
       WorkerStep.deleteBranch "old", WorkerStep.pushAllTags,
       WorkerStep.deleteTag "v0"] := by
  refine ⟨?_, ?_, ?_, ?_⟩
  · exact (mirrorRepository_failure_propagation "S" "D" envCloneFail).1
      GitErr.authRequired rfl (by decide)
  · exact (mirrorRepository_failure_propagation "S" "D" envListSourceFail).2.1
      (GitErr.other "net") rfl (by decide) (by decide)
  · exact (mirrorRepository_failure_propagation "S" "D" envFetchFail).2.2.1
      (GitErr.other "net") rfl (by decide) rfl rfl (by decide)
  · have h := (mirrorRepository_failure_propagation "S" "D" envPushFail).2.2.2
      rfl (by decide) rfl rfl rfl
    rw [h]
    decide

/-- Witness for the single-status and drain theorem on a concrete worker run
and a two-element arrival list. -/
theorem worker_single_status_and_drain_witness :
    (MirrorRepository "S" "D" envAllOk).messages.length = 1 ∧
    receiveLoop 2 [⟨["x"]⟩, ⟨[]⟩] 0 []
      = some (aggregatedErrors [⟨["x"]⟩, ⟨[]⟩], 2) ∧
    receiveLoop 2 [⟨[]⟩, ⟨["x"]⟩] 0 []
      = some (aggregatedErrors [⟨[]⟩, ⟨["x"]⟩], 2) := by
  exact ⟨worker_single_status_and_drain.1 "S" "D" envAllOk,
    worker_single_status_and_drain.2.1 2 [⟨["x"]⟩, ⟨[]⟩] (by decide) rfl,
    worker_single_status_and_drain.2.2 2 [⟨["x"]⟩, ⟨[]⟩] [⟨[]⟩, ⟨["x"]⟩]
      (by decide) rfl (List.Perm.swap _ _ _)⟩

/-- Witness for the amended authentication theorem: a resolvable token gives
basic auth for the clone options, an unresolvable one gives anonymous
source-side options but a destination basic-auth value with empty password. -/
theorem auth_presented_witness :
    GetCloneOptions envTokenSet "https://example.com/r" ⟨"token", "MY_TOKEN"⟩
      = { url := "https://example.com/r",
          auth := GitAuth.basic basicAuthUsername (envTokenSet "MY_TOKEN") } ∧
    (GetCloneOptions envTokenEmpty "https://example.com/r"
      ⟨"token", "MY_TOKEN"⟩).auth = GitAuth.noAuth ∧
    GetDestinationAuth envTokenEmpty ⟨"token", "MY_TOKEN"⟩
      = GitAuth.basic basicAuthUsername "" := by
  refine ⟨?_, ?_, ?_⟩
  · exact ((auth_presented envTokenSet "https://example.com/r"
      "+refs/heads/a:refs/heads/a" ⟨"token", "MY_TOKEN"⟩).2.1 rfl (by decide)).1
  · exact ((auth_presented envTokenEmpty "https://example.com/r"
      "+refs/heads/a:refs/heads/a" ⟨"token", "MY_TOKEN"⟩).2.2 (Or.inr rfl)).1
  · exact ((auth_presented envTokenEmpty "https://example.com/r"
      "+refs/heads/a:refs/heads/a" ⟨"token", "MY_TOKEN"⟩).2.2 (Or.inr rfl)).2.2.2

/-- Witness for the amended capacity theorem on a one-pair list. -/
theorem messagesChannel_capacity_amended_witness :
    messagesChannelCapacity = 100 ∧
    totalStatusSends [pairA] (fun _ => envAllOk) = 1 ∧
    totalStatusSends [pairA] (fun _ => envAllOk) ≤ messagesChannelCapacity := by
  have h := messagesChannel_capacity_amended [pairA] (fun _ => envAllOk) (by decide)
  exact ⟨h.1, h.2.1, h.2.2⟩

end GitSynchronizer
